import Mathlib

/-!
Shallow embedding of the real-time object-detection optimization pipeline of
`src/components/shared/UltraOptimizedDetector.tsx` together with the response
validation of `src/app/api/gemini-detection-realtime/route.ts`.

Times (milliseconds) are modelled as integers; fractional quantities
(confidences, quality levels, frame-difference scores, response times fed to
the mean computation) are modelled as rationals.
-/

namespace MomEye

/-- A detection point (`interface OptimizedPoint`, UltraOptimizedDetector.tsx
lines 16-24).  In the source `estimated` and `trackingId` are optional fields;
fresh detections built in `performSmartDetection` leave them absent (falsy),
which is modelled as `estimated = false` and `trackingId = none`. -/
structure OptimizedPoint where
  x : ℚ
  y : ℚ
  label : String
  confidence : ℚ
  timestamp : ℤ
  estimated : Bool
  trackingId : Option String
deriving DecidableEq

namespace ObjectTracker

/-- The per-label record stored in `ObjectTracker.trackedObjects`
(UltraOptimizedDetector.tsx lines 73-75). -/
structure Entry where
  x : ℚ
  y : ℚ
  lastSeen : ℤ
  confidence : ℚ
  trackingId : String
deriving DecidableEq

/-- The tracker's `Map<string, Entry>` as an insertion-ordered association
list (JS `Map` iterates in insertion order). -/
abbrev TrackerState := List (String × Entry)

/-- `Map.prototype.get`. -/
def mapGet : TrackerState → String → Option Entry
  | [], _ => none
  | (k, v) :: rest, l => if k = l then some v else mapGet rest l

/-- `Map.prototype.set`: replaces in place when the key exists (keeping its
position), otherwise appends. -/
def mapSet : TrackerState → String → Entry → TrackerState
  | [], l, v => [(l, v)]
  | (k, w) :: rest, l, v =>
      if k = l then (l, v) :: rest else (k, w) :: mapSet rest l v

/-- `updateObject` (lines 77-82): reuses the stored trackingId when the label
already has an entry in the map, otherwise mints `` `${label}-${Date.now()}` ``.
`now` stands for `Date.now()`. -/
def updateObject (st : TrackerState) (label : String) (x y confidence : ℚ)
    (now : ℤ) : TrackerState :=
  let trackingId :=
    ((mapGet st label).map Entry.trackingId).getD (label ++ "-" ++ toString now)
  mapSet st label ⟨x, y, now, confidence, trackingId⟩

/-- `getTrackedObjects` (lines 84-104).  The default argument is 5000 at the
source; every call site passes 3000 or uses the default, so the rational
division-by-zero convention (0) at `maxAge = 0` is never exercised. -/
def getTrackedObjects (st : TrackerState) (now maxAge : ℤ) :
    List OptimizedPoint :=
  (st.filter (fun p => decide (now - p.2.lastSeen < maxAge))).map (fun p =>
    { label := p.1
      x := p.2.x
      y := p.2.y
      confidence := p.2.confidence *
        max (3/10) (1 - ((now - p.2.lastSeen : ℤ) : ℚ) / (maxAge : ℚ))
      timestamp := p.2.lastSeen
      estimated := decide (now - p.2.lastSeen > 2000)
      trackingId := some p.2.trackingId })

/-- `shouldSkipDetection` (lines 106-109). -/
def shouldSkipDetection (st : TrackerState) (now : ℤ) : Bool :=
  let recentObjects := getTrackedObjects st now 3000
  !recentObjects.isEmpty && recentObjects.all (fun o => !o.estimated)

/-- `getCacheHitCount` (lines 111-114). -/
def getCacheHitCount (st : TrackerState) (now : ℤ) : ℕ :=
  (st.filter (fun p => decide (now - p.2.lastSeen < 3000))).length

end ObjectTracker

namespace AdaptiveQualityController

/-- `AdaptiveQualityController` state (UltraOptimizedDetector.tsx
lines 117-120): bounded response-time history and current quality. -/
structure QCState where
  responseTimeHistory : List ℚ
  currentQuality : ℚ
deriving DecidableEq

/-- Construction state: empty history, quality 0.7. -/
def initQC : QCState := ⟨[], 7/10⟩

/-- `targetResponseTime` (line 120). -/
def targetResponseTime : ℚ := 1500

/-- `adjustQuality` (lines 122-137): push the sample, evict the oldest when
the window exceeds 10, then step quality against the window mean. -/
def adjustQuality (s : QCState) (responseTime : ℚ) : QCState :=
  let hist0 := s.responseTimeHistory ++ [responseTime]
  let hist := if hist0.length > 10 then hist0.tail else hist0
  let avgTime := hist.sum / (hist.length : ℚ)
  let q :=
    if avgTime > targetResponseTime then
      max (3/10) (s.currentQuality - 5/100)
    else if avgTime < targetResponseTime * (7/10) then
      min (9/10) (s.currentQuality + 2/100)
    else s.currentQuality
  ⟨hist, q⟩

/-- `getAverageResponseTime` (lines 143-147). -/
def getAverageResponseTime (s : QCState) : ℚ :=
  if s.responseTimeHistory.isEmpty then 0
  else s.responseTimeHistory.sum / (s.responseTimeHistory.length : ℚ)

/-- `getRecommendedInterval` (lines 149-155). -/
def getRecommendedInterval (s : QCState) : ℕ :=
  let avgTime := getAverageResponseTime s
  if avgTime > 3000 then 4000
  else if avgTime > 2000 then 3000
  else if avgTime > 1000 then 2000
  else 1500

/-- The controller state after a whole sequence of `adjustQuality` calls
starting from the construction state. -/
def applyCalls (l : List ℚ) : QCState := l.foldl adjustQuality initQC

end AdaptiveQualityController

namespace FrameDifferenceDetector

/-- Number of loop iterations of `for (let i = 0; i < len; i += 16)`:
the count of multiples of 16 below `len`. -/
def sampleCount (len : ℕ) : ℕ := (len + 15) / 16

/-- Reading `data[i]`; an `ImageData` buffer has length `4 * width * height`,
so every index the loop reads is in bounds and the default is never used. -/
def byteAt (d : List ℤ) (i : ℕ) : ℤ := d.getD i 0

/-- One iteration body of `calculateFrameDifference` (lines 62-66): the sum of
absolute R/G/B channel differences at byte offset `i`. -/
def sampleTerm (d1 d2 : List ℤ) (i : ℕ) : ℤ :=
  |byteAt d1 i - byteAt d2 i| + |byteAt d1 (i+1) - byteAt d2 (i+1)| +
    |byteAt d1 (i+2) - byteAt d2 (i+2)|

/-- `totalDifference` accumulated by the loop (lines 60-66). -/
def totalDifference (d1 d2 : List ℤ) : ℤ :=
  ((List.range (sampleCount d1.length)).map
    (fun k => sampleTerm d1 d2 (16 * k))).sum

/-- `calculateFrameDifference` (lines 57-69):
`(totalDifference / (data1.length * 0.25)) / (255 * 3)`. -/
def calculateFrameDifference (d1 d2 : List ℤ) : ℚ :=
  ((totalDifference d1 d2 : ℚ) / ((d1.length : ℚ) * (1/4))) / (255 * 3)

/-- The change threshold (line 38). -/
def threshold : ℚ := 15/100

/-- `shouldProcessFrame` (lines 40-55) with the mutable `lastFrameData` made
explicit: returns the decision and the new stored frame. -/
def shouldProcessFrame (lastFrameData : Option (List ℤ)) (current : List ℤ) :
    Bool × Option (List ℤ) :=
  match lastFrameData with
  | none => (true, some current)
  | some prev =>
      (decide (calculateFrameDifference prev current > threshold), some current)

end FrameDifferenceDetector

namespace Route

/-- A parsed JSON value, as produced by `JSON.parse` in
`src/app/api/gemini-detection-realtime/route.ts`. -/
inductive JValue where
  | null : JValue
  | bool (b : Bool) : JValue
  | num (q : ℚ) : JValue
  | str (s : String) : JValue
  | arr (elems : List JValue) : JValue
  | obj (fields : List (String × JValue)) : JValue

/-- Field lookup in an object's key/value list. -/
def lookupField : List (String × JValue) → String → Option JValue
  | [], _ => none
  | (k, v) :: rest, key => if k = key then some v else lookupField rest key

/-- JS property access `item.key` as executed by the route: on `null` it
throws a TypeError (modelled as `.error ()`; `undefined` cannot occur in a
`JSON.parse` result), and the route's outer catch turns the throw into a 500
response; on any other value it yields the property, or `undefined`
(`.ok none`) for primitives, arrays and absent keys. -/
def getField : JValue → String → Except Unit (Option JValue)
  | .null, _ => .error ()
  | .obj fields, key => .ok (lookupField fields key)
  | _, _ => .ok none

/-- The value `item.key` takes when the access does not throw (`item` not
null): the property, or `undefined` (`none`) for primitives, arrays and
absent keys. -/
def fieldOf : JValue → String → Option JValue
  | .obj fields, key => lookupField fields key
  | _, _ => none

/-- JS truthiness of a JSON value (`NaN` is not representable here). -/
def truthy : JValue → Bool
  | .null => false
  | .bool b => b
  | .num q => decide (q ≠ 0)
  | .str s => decide (s ≠ "")
  | .arr _ => true
  | .obj _ => true

/-- JS truthiness of a possibly-`undefined` value. -/
def optTruthy : Option JValue → Bool
  | some v => truthy v
  | none => false

/-- `Array.isArray`. -/
def isArray : JValue → Bool
  | .arr _ => true
  | _ => false

/-- `Array.isArray(v) && v.length === 2` on a possibly-`undefined` value. -/
def isArrayLen2 : Option JValue → Bool
  | some (.arr xs) => xs.length == 2
  | _ => false

/-- The value of the filter condition of route.ts lines 147-152 on an item
whose property accesses do not throw:
`item.point && Array.isArray(item.point) && item.point.length === 2 && item.label`. -/
def wellFormedItem (item : JValue) : Bool :=
  (optTruthy (fieldOf item "point") && isArrayLen2 (fieldOf item "point")) &&
    optTruthy (fieldOf item "label")

/-- The filter callback of route.ts lines 147-152, error path included: the
`item.point` access throws on a null item.  The `item.label` access is
reached only past the point checks (the `&&` short-circuit), and it can only
throw when `item.point` already threw, so sequencing it after the point
checks is exact. -/
def itemKeep (item : JValue) : Except Unit Bool := do
  let p ← getField item "point"
  if optTruthy p && isArrayLen2 p then do
    let l ← getField item "label"
    pure (optTruthy l)
  else
    pure false

/-- An element of the route's `enhancedResults` (lines 154-159). -/
structure EnhancedItem where
  point : JValue
  label : JValue
  confidence : JValue
  timestamp : ℤ

/-- `v || dflt` for a possibly-`undefined` value. -/
def jsOr (v : Option JValue) (dflt : JValue) : JValue :=
  match v with
  | some x => if truthy x then x else dflt
  | none => dflt

/-- The map callback of route.ts lines 154-159, error path included (its
accesses can only throw on a null item, which the preceding filter already
threw on). -/
def itemBuild (now : ℤ) (item : JValue) : Except Unit EnhancedItem := do
  let p ← getField item "point"
  let l ← getField item "label"
  let c ← getField item "confidence"
  pure { point := p.getD .null, label := l.getD .null,
         confidence := jsOr c (.num (8/10)), timestamp := now }

/-- The enhanced item built from an item whose accesses do not throw. -/
def enhancedItem (now : ℤ) (item : JValue) : EnhancedItem :=
  { point := (fieldOf item "point").getD .null
    label := (fieldOf item "label").getD .null
    confidence := jsOr (fieldOf item "confidence") (.num (8/10))
    timestamp := now }

/-- `Array.prototype.filter` over the parsed items, left to right, the first
thrown TypeError aborting the whole request. -/
def filterItems : List JValue → Except Unit (List JValue)
  | [] => .ok []
  | item :: rest => do
      let b ← itemKeep item
      let tail ← filterItems rest
      pure (if b then item :: tail else tail)

/-- `Array.prototype.map` over the kept items, left to right, the first
thrown TypeError aborting the whole request. -/
def mapItems (now : ℤ) : List JValue → Except Unit (List EnhancedItem)
  | [] => .ok []
  | item :: rest => do
      let e ← itemBuild now item
      let tail ← mapItems now rest
      pure (e :: tail)

/-- Lines 140-159 of route.ts: a non-array parse result is replaced by `[]`;
the array is then filtered for shape, truncated to `maxItems` and mapped.
`.error ()` models a thrown TypeError (a null array element), which the
route's outer catch (lines 174-208) turns into a 500 "Real-time detection
failed" response for the whole request.  `now` stands for `Date.now()`. -/
def enhancedResults (parsed : JValue) (maxItems : ℕ) (now : ℤ) :
    Except Unit (List EnhancedItem) :=
  let arrItems := match parsed with
    | .arr xs => xs
    | _ => []
  do
    let kept ← filterItems arrItems
    mapItems now (kept.take maxItems)

/-- Lines 126-138 and 174-208 of route.ts: when `JSON.parse` throws, the
route answers with a 422 error (carrying a truncated raw sample); when the
validation pipeline throws (null array element), the outer catch answers
with a 500 error; otherwise the validated list is returned.  `none` models a
raw response that is not JSON. -/
def routeParseOutcome (parsed : Option JValue) (maxItems : ℕ) (now : ℤ) :
    Except String (List EnhancedItem) :=
  match parsed with
  | none => .error "Failed to parse AI response"
  | some v =>
      match enhancedResults v maxItems now with
      | .error _ => .error "Real-time detection failed"
      | .ok results => .ok results

end Route

namespace Detector

open ObjectTracker AdaptiveQualityController

/-- The `optimizationsEnabled` toggles (UltraOptimizedDetector.tsx
lines 170-175; all four default to `true`). -/
structure DetectorFlags where
  frameDifference : Bool
  objectTracking : Bool
  adaptiveQuality : Bool
  smartSkipping : Bool
deriving DecidableEq

/-- The default `optimizationsEnabled` state. -/
def allFlags : DetectorFlags := ⟨true, true, true, true⟩

/-- One element of a successful response's `data.results` as consumed by the
client (lines 339-345): a 2-element `[y, x]` point, a label and an optional
confidence (`none` models an absent field). -/
structure RemoteItem where
  point0 : ℚ
  point1 : ℚ
  label : String
  confidence : Option ℚ
deriving DecidableEq

/-- `item.confidence || 0.8` for a number-or-absent confidence. -/
def resolveConfidence : Option ℚ → ℚ
  | some c => if c = 0 then 8/10 else c
  | none => 8/10

/-- Lines 339-345: build a fresh `OptimizedPoint` from a response item
(`x = point[1]/1000`, `y = point[0]/1000`; `estimated`/`trackingId` absent). -/
def toOptimizedPoint (now : ℤ) (it : RemoteItem) : OptimizedPoint :=
  { x := it.point1 / 1000
    y := it.point0 / 1000
    label := it.label
    confidence := resolveConfidence it.confidence
    timestamp := now
    estimated := false
    trackingId := none }

/-- Lines 354-359: fresh detections plus the tracked objects whose label does
not occur among the fresh detections. -/
def mergeDetections (newObjects trackedObjects : List OptimizedPoint) :
    List OptimizedPoint :=
  newObjects ++ trackedObjects.filter (fun tracked =>
    !(newObjects.any (fun detected => detected.label == tracked.label)))

/-- The component state touched by the detection cycle.  `ledgerReports` is
the sequence of per-call costs reported to the external credit ledger
(`updateCredits(userId, -3)` calls); `currentBalance` is the session's tracked
balance; `timerInterval` models `intervalRef` (`none` = no timer armed).
Display-only metrics (fps, last response time, quality mirror) are omitted. -/
structure DetectorState where
  tracker : TrackerState
  detectedObjects : List OptimizedPoint
  currentBalance : ℤ
  ledgerReports : List ℤ
  skippedFrames : ℕ
  detectionCount : ℕ
  cacheHits : ℕ
  qc : QCState
  isDetecting : Bool
  timerInterval : Option ℕ
deriving DecidableEq

/-- Component construction state for a given starting credit balance. -/
def initialState (creditBalance : ℤ) : DetectorState :=
  { tracker := []
    detectedObjects := []
    currentBalance := creditBalance
    ledgerReports := []
    skippedFrames := 0
    detectionCount := 0
    cacheHits := 0
    qc := initQC
    isDetecting := false
    timerInterval := none }

/-- Lines 328-377: the continuation of `performSmartDetection` that runs when
the awaited response arrives OK with `data.success && data.results`.  In
order: `updateCredits(userId, -3)` is called (one ledger report per successful
call) and, when it does not throw (`updateCreditsOk`), the balance is
decremented by 3 (line 334); fresh objects are built; the tracker is updated
when tracking is enabled; the merged set is published; the balance is
decremented by 3 again (line 362); metrics are updated; the quality controller
is fed when adaptive quality is enabled.  Nothing here consults whether the
session is still running. -/
def applyRemoteSuccess (flags : DetectorFlags) (st : DetectorState) (now : ℤ)
    (results : List RemoteItem) (responseTime : ℚ) (updateCreditsOk : Bool) :
    DetectorState :=
  let balance1 := if updateCreditsOk then st.currentBalance - 3
    else st.currentBalance
  let newObjects := results.map (toOptimizedPoint now)
  let tracker1 := if flags.objectTracking then
      newObjects.foldl
        (fun t o => updateObject t o.label o.x o.y o.confidence now) st.tracker
    else st.tracker
  let allObjects := if flags.objectTracking then
      mergeDetections newObjects (getTrackedObjects tracker1 now 5000)
    else newObjects
  { st with
    tracker := tracker1
    detectedObjects := allObjects
    currentBalance := balance1 - 3
    ledgerReports := st.ledgerReports ++ [3]
    detectionCount := st.detectionCount + 1
    cacheHits := getCacheHitCount tracker1 now
    qc := if flags.adaptiveQuality then adjustQuality st.qc responseTime
      else st.qc }

/-- `performSmartDetection` (lines 282-382) as a pure state transformer.
The environment outcomes are passed explicitly: `searchActive` models
`searchQuery.trim()` being nonempty, `frameChanged` the frame-difference
verdict, `captureOk` a non-null captured frame, `remote = some (results, rt)`
a response that is OK with `success` and `results` (latency `rt`), `remote =
none` any fetch error, non-OK status or missing success/results (all of which
leave the state untouched), and `updateCreditsOk` whether the ledger call
succeeds. -/
def performSmartDetection (flags : DetectorFlags) (st : DetectorState)
    (now : ℤ) (searchActive frameChanged captureOk : Bool)
    (remote : Option (List RemoteItem × ℚ)) (updateCreditsOk : Bool) :
    DetectorState :=
  if !searchActive || st.currentBalance < 3 then st
  else if flags.smartSkipping && shouldSkipDetection st.tracker now then
    { st with
      skippedFrames := st.skippedFrames + 1
      cacheHits := getCacheHitCount st.tracker now
      detectedObjects := getTrackedObjects st.tracker now 5000 }
  else if flags.frameDifference && !frameChanged then
    { st with skippedFrames := st.skippedFrames + 1 }
  else if !captureOk then st
  else
    match remote with
    | none => st
    | some (results, responseTime) =>
        applyRemoteSuccess flags st now results responseTime updateCreditsOk

/-- `stopVideoStream` (lines 229-241): clears the timer, stops detecting and
empties the published set.  The tracker ref is left alone and no in-flight
request is cancelled or fenced. -/
def stopVideoStream (st : DetectorState) : DetectorState :=
  { st with
    isDetecting := false
    timerInterval := none
    detectedObjects := [] }

/-- `validateCreditsForDetection` (lines 405-414):
`Math.ceil(60000 / detectionInterval) * 3 ≤ balance` (a zero interval yields
an infinite cost in JS, hence `false`). -/
def validateCreditsForDetection (balance : ℤ) (detectionInterval : ℕ) : Bool :=
  if detectionInterval = 0 then false
  else decide
    (3 * (((60000 + detectionInterval - 1) / detectionInterval : ℕ) : ℤ) ≤
      balance)

/-- `toggleSmartDetection` (lines 385-403): stopping clears the timer;
starting validates credits and arms the timer once, with the recommended
interval when adaptive quality is enabled and the configured
`detectionInterval` otherwise. -/
def toggleSmartDetection (flags : DetectorFlags) (detectionInterval : ℕ)
    (st : DetectorState) : DetectorState :=
  if st.isDetecting then
    { st with isDetecting := false, timerInterval := none }
  else if !validateCreditsForDetection st.currentBalance detectionInterval then
    st
  else
    { st with
      isDetecting := true
      timerInterval := some (if flags.adaptiveQuality then
        getRecommendedInterval st.qc else detectionInterval) }

end Detector

open ObjectTracker AdaptiveQualityController FrameDifferenceDetector Route
  Detector

/-- The skip rule exactly as claim C3 words it (for comparison with the
implementation): at least one tracked entry has age at most 2000ms, and no
active entry — age within 3000ms, read inclusively — has age greater than
2000ms. -/
def claimSkipRule (st : TrackerState) (now : ℤ) : Prop :=
  (∃ p ∈ st, now - (p.2).lastSeen ≤ 2000) ∧
    ∀ p ∈ st, now - (p.2).lastSeen ≤ 3000 → ¬(now - (p.2).lastSeen > 2000)

instance (st : TrackerState) (now : ℤ) : Decidable (claimSkipRule st now) :=
  inferInstanceAs (Decidable ((∃ p ∈ st, now - (p.2).lastSeen ≤ 2000) ∧
    ∀ p ∈ st, now - (p.2).lastSeen ≤ 3000 → ¬(now - (p.2).lastSeen > 2000)))

theorem mem_getTrackedObjects (st : TrackerState) (now maxAge : ℤ)
    (p : OptimizedPoint) :
    p ∈ getTrackedObjects st now maxAge ↔
      ∃ l e, (l, e) ∈ st ∧ now - e.lastSeen < maxAge ∧
        p = { label := l, x := e.x, y := e.y,
              confidence := e.confidence *
                max (3/10) (1 - ((now - e.lastSeen : ℤ) : ℚ) / (maxAge : ℚ)),
              timestamp := e.lastSeen,
              estimated := decide (now - e.lastSeen > 2000),
              trackingId := some e.trackingId } := by
  simp only [getTrackedObjects, List.mem_map, List.mem_filter,
    decide_eq_true_eq]
  constructor
  · rintro ⟨⟨l, e⟩, ⟨hm, hage⟩, rfl⟩
    exact ⟨l, e, hm, hage, rfl⟩
  · rintro ⟨l, e, hm, hage, rfl⟩
    exact ⟨(l, e), ⟨hm, hage⟩, rfl⟩

/-- C4: for every tracker state, time and maxAge, `getTrackedObjects` returns
exactly the entries of age strictly below maxAge, with confidence scaled by
`max(0.3, 1 - age/maxAge)` and `estimated` true exactly when age exceeds
2000ms; an entry whose age exceeds maxAge contributes nothing to the result. -/
theorem getTrackedObjects_characterization_C4 :
    ∀ (st : TrackerState) (now maxAge : ℤ),
    (∀ p, p ∈ getTrackedObjects st now maxAge ↔
      ∃ l e, (l, e) ∈ st ∧ now - e.lastSeen < maxAge ∧
        p = { label := l, x := e.x, y := e.y,
              confidence := e.confidence *
                max (3/10) (1 - ((now - e.lastSeen : ℤ) : ℚ) / (maxAge : ℚ)),
              timestamp := e.lastSeen,
              estimated := decide (now - e.lastSeen > 2000),
              trackingId := some e.trackingId }) ∧
    (∀ l e, (l, e) ∈ st → maxAge < now - e.lastSeen →
      ∀ p ∈ getTrackedObjects st now maxAge,
        ¬(p.label = l ∧ p.timestamp = e.lastSeen)) := by
  intro st now maxAge
  refine ⟨mem_getTrackedObjects st now maxAge, ?_⟩
  intro l e _ hold p hp hbad
  obtain ⟨l', e', _, hage', hp'⟩ :=
    (mem_getTrackedObjects st now maxAge p).mp hp
  have hts : p.timestamp = e'.lastSeen := by rw [hp']
  have : e'.lastSeen = e.lastSeen := by rw [← hts, hbad.2]
  rw [this] at hage'
  omega

theorem getTrackedObjects_characterization_witness_C4 :
    ({ label := "cup", x := 1/2, y := 1/2,
       confidence := (9/10 : ℚ) *
         max (3/10) (1 - (((1000 : ℤ) - 0 : ℤ) : ℚ) / (5000 : ℚ)),
       timestamp := 0, estimated := decide (((1000 : ℤ) - 0) > 2000),
       trackingId := some "cup-0" } : OptimizedPoint) ∈
      getTrackedObjects [("cup", ⟨1/2, 1/2, 0, 9/10, "cup-0"⟩)] 1000 5000 :=
  ((getTrackedObjects_characterization_C4 [("cup", ⟨1/2, 1/2, 0, 9/10, "cup-0"⟩)]
      1000 5000).1 _).mpr
    ⟨"cup", ⟨1/2, 1/2, 0, 9/10, "cup-0"⟩, List.mem_singleton_self _,
      by norm_num, rfl⟩

/-- C3 counterexample: with entries of age 1000ms and exactly 3000ms,
`shouldSkipDetection` is true (the 3000ms entry falls outside the strict
`age < 3000` active window of the code), while the claim's rule — which reads
the active window inclusively (age ≤ 3000ms) — is false, since that active
entry has age greater than 2000ms. -/
theorem shouldSkip_boundary_counterexample_C3 :
    shouldSkipDetection
      [("a", ⟨0, 0, 9000, 1/2, "a-0"⟩), ("b", ⟨0, 0, 7000, 1/2, "b-0"⟩)]
      10000 = true ∧
    ¬claimSkipRule
      [("a", ⟨0, 0, 9000, 1/2, "a-0"⟩), ("b", ⟨0, 0, 7000, 1/2, "b-0"⟩)]
      10000 := by
  decide

/-- C3 (amended): `shouldSkipDetection` is true iff at least one tracked entry
has age at most 2000ms and no active entry — age strictly less than 3000ms —
has age greater than 2000ms; with no tracked entries, or with every active
entry estimated, it is false. -/
theorem shouldSkip_characterization_C3 :
    ∀ (st : TrackerState) (now : ℤ),
    shouldSkipDetection st now = true ↔
      ((∃ p ∈ st, now - (p.2).lastSeen ≤ 2000) ∧
        ∀ p ∈ st, now - (p.2).lastSeen < 3000 → now - (p.2).lastSeen ≤ 2000) := by
  intro st now
  unfold shouldSkipDetection
  rw [Bool.and_eq_true, List.all_eq_true, Bool.not_eq_true',
    List.isEmpty_eq_false]
  constructor
  · rintro ⟨hne, hall⟩
    obtain ⟨o, ho⟩ := List.exists_mem_of_ne_nil _ hne
    obtain ⟨l, e, hm, hage, ho'⟩ :=
      (mem_getTrackedObjects st now 3000 o).mp ho
    have hage2000 : now - e.lastSeen ≤ 2000 := by
      have h1 := hall o ho
      rw [ho'] at h1
      simp only [Bool.not_eq_true', decide_eq_false_iff_not, not_lt] at h1
      exact h1
    refine ⟨⟨(l, e), hm, hage2000⟩, ?_⟩
    intro p hp hplt
    have hmem := (mem_getTrackedObjects st now 3000 _).mpr
      ⟨p.1, p.2, hp, hplt, rfl⟩
    have h2 := hall _ hmem
    simp only [Bool.not_eq_true', decide_eq_false_iff_not, not_lt] at h2
    exact h2
  · rintro ⟨⟨p, hp, hple⟩, hall⟩
    constructor
    · have hmem := (mem_getTrackedObjects st now 3000 _).mpr
        ⟨p.1, p.2, hp, by omega, rfl⟩
      exact List.ne_nil_of_mem hmem
    · intro o ho
      obtain ⟨l, e, hm, hage, ho'⟩ :=
        (mem_getTrackedObjects st now 3000 o).mp ho
      rw [ho']
      show (!decide (now - e.lastSeen > 2000)) = true
      simp only [Bool.not_eq_true', decide_eq_false_iff_not, not_lt]
      exact hall (l, e) hm hage

theorem shouldSkip_characterization_witness_C3 :
    shouldSkipDetection [("a", ⟨0, 0, 9500, 1/2, "a-0"⟩)] 10000 = true :=
  (shouldSkip_characterization_C3 [("a", ⟨0, 0, 9500, 1/2, "a-0"⟩)] 10000).mpr
    ⟨⟨("a", ⟨0, 0, 9500, 1/2, "a-0"⟩), List.mem_singleton_self _,
        by norm_num⟩,
      fun p hp _ => by
        rw [List.mem_singleton.mp hp]
        norm_num⟩

/-- C9 counterexample: the label "cup" is first observed at t=0 and gets the
identifier "cup-0"; by t=10000 its entry has aged past the 5000ms staleness
window (it is no longer surfaced), yet a new observation at t=10000 reuses
the very same identifier instead of minting a fresh unique one — because the
map never deletes entries. -/
theorem trackingId_reused_after_eviction_C9 :
    (getTrackedObjects (updateObject [] "cup" (1/2) (1/2) (9/10) 0)
       10000 5000 = []) ∧
    ((mapGet (updateObject (updateObject [] "cup" (1/2) (1/2) (9/10) 0)
        "cup" (1/2) (1/2) (9/10) 10000) "cup").map Entry.trackingId =
      some "cup-0") ∧
    ¬((mapGet (updateObject (updateObject [] "cup" (1/2) (1/2) (9/10) 0)
        "cup" (1/2) (1/2) (9/10) 10000) "cup").map Entry.trackingId =
      some ("cup-" ++ toString (10000 : ℤ))) := by
  decide

theorem mapGet_cons (k : String) (w : Entry) (t : TrackerState) (l : String) :
    mapGet ((k, w) :: t) l = if k = l then some w else mapGet t l := rfl

theorem mapSet_cons (k : String) (w : Entry) (t : TrackerState) (l : String)
    (v : Entry) :
    mapSet ((k, w) :: t) l v =
      if k = l then (l, v) :: t else (k, w) :: mapSet t l v := rfl

theorem mapGet_mapSet_self (st : TrackerState) (l : String) (v : Entry) :
    mapGet (mapSet st l v) l = some v := by
  induction st with
  | nil => simp [mapGet, mapSet]
  | cons hd t ih =>
      obtain ⟨k, w⟩ := hd
      by_cases hk : k = l
      · rw [mapSet_cons, if_pos hk, mapGet_cons, if_pos rfl]
      · rw [mapSet_cons, if_neg hk, mapGet_cons, if_neg hk, ih]

theorem mapGet_mapSet_ne (st : TrackerState) (l l' : String) (v : Entry)
    (h : l' ≠ l) : mapGet (mapSet st l v) l' = mapGet st l' := by
  have hne : ¬(l = l') := fun hh => h hh.symm
  induction st with
  | nil =>
      show mapGet [(l, v)] l' = mapGet [] l'
      rw [mapGet_cons, if_neg hne]
  | cons hd t ih =>
      obtain ⟨k, w⟩ := hd
      by_cases hk : k = l
      · rw [mapSet_cons, if_pos hk, mapGet_cons, if_neg hne, mapGet_cons,
          hk, if_neg hne]
      · rw [mapSet_cons, if_neg hk, mapGet_cons, mapGet_cons, ih]

/-- C9 (amended): `updateObject` on a label with no entry in the map mints the
identifier `label-now`; on a label that already has an entry — no matter how
old, because entries are never removed within a session — the stored
identifier is reused, so a label reappearing after aging past the staleness
window keeps its original identifier rather than getting a new unique one,
and an entry retains its identifier across updates. -/
theorem updateObject_trackingId_C9 :
    ∀ (st : TrackerState) (label : String) (x y c : ℚ) (now : ℤ),
    (mapGet st label = none →
      mapGet (updateObject st label x y c now) label =
        some ⟨x, y, now, c, label ++ "-" ++ toString now⟩) ∧
    (∀ e, mapGet st label = some e →
      mapGet (updateObject st label x y c now) label =
        some ⟨x, y, now, c, e.trackingId⟩) ∧
    (∀ l, (mapGet st l).isSome = true →
      (mapGet (updateObject st label x y c now) l).isSome = true) := by
  intro st label x y c now
  refine ⟨?_, ?_, ?_⟩
  · intro hnone
    unfold updateObject
    rw [hnone]
    exact mapGet_mapSet_self st label _
  · intro e he
    unfold updateObject
    rw [he]
    exact mapGet_mapSet_self st label _
  · intro l hl
    by_cases heq : l = label
    · subst heq
      unfold updateObject
      rw [mapGet_mapSet_self]
      rfl
    · unfold updateObject
      rw [mapGet_mapSet_ne st label l _ heq]
      exact hl

theorem updateObject_trackingId_witness_C9 :
    mapGet (updateObject [] "cup" (1/2) (1/2) (9/10) 7) "cup" =
      some ⟨1/2, 1/2, 7, 9/10, "cup-7"⟩ :=
  (updateObject_trackingId_C9 [] "cup" (1/2) (1/2) (9/10) 7).1 rfl

theorem applyCalls_append (l : List ℚ) (rt : ℚ) :
    applyCalls (l ++ [rt]) = adjustQuality (applyCalls l) rt := by
  simp [applyCalls, List.foldl_append]

theorem adjust_hist (s : QCState) (rt : ℚ) :
    (adjustQuality s rt).responseTimeHistory =
      if (s.responseTimeHistory ++ [rt]).length > 10 then
        (s.responseTimeHistory ++ [rt]).tail
      else s.responseTimeHistory ++ [rt] := rfl

theorem hist_applyCalls (l : List ℚ) :
    (applyCalls l).responseTimeHistory = l.drop (l.length - 10) := by
  induction l using List.reverseRecOn with
  | nil => rfl
  | append_singleton xs x ih =>
      rw [applyCalls_append, adjust_hist, ih]
      have hdroplen : (xs.drop (xs.length - 10)).length =
          xs.length - (xs.length - 10) := List.length_drop _ _
      by_cases hge : 10 ≤ xs.length
      · rw [if_pos (by simp [hdroplen]; omega :
          (xs.drop (xs.length - 10) ++ [x]).length > 10)]
        have hne : xs.drop (xs.length - 10) ≠ [] := by
          intro hnil
          rw [hnil] at hdroplen
          simp at hdroplen
          omega
        obtain ⟨y, ys, hys⟩ := List.exists_cons_of_ne_nil hne
        rw [hys]
        have htail : ys = xs.drop (xs.length - 10 + 1) := by
          have h2 := List.tail_drop xs (xs.length - 10)
          rw [hys] at h2
          simpa using h2
        rw [List.cons_append, List.tail_cons, htail]
        have hle : xs.length - 10 + 1 ≤ xs.length := by omega
        rw [← List.drop_append_of_le_length hle]
        congr 1
        simp
        omega
      · rw [if_neg (by simp [hdroplen]; omega)]
        have h0 : xs.length - 10 = 0 := by omega
        have h0' : (xs ++ [x]).length - 10 = 0 := by simp; omega
        rw [h0, h0', List.drop_zero, List.drop_zero]

theorem adjust_quality_bounds (s : QCState) (rt : ℚ)
    (h1 : 3/10 ≤ s.currentQuality) (h2 : s.currentQuality ≤ 9/10) :
    3/10 ≤ (adjustQuality s rt).currentQuality ∧
      (adjustQuality s rt).currentQuality ≤ 9/10 := by
  obtain ⟨a, ha⟩ : ∃ a : ℚ, (adjustQuality s rt).currentQuality =
      if a > targetResponseTime then max (3/10) (s.currentQuality - 5/100)
      else if a < targetResponseTime * (7/10) then
        min (9/10) (s.currentQuality + 2/100)
      else s.currentQuality := ⟨_, rfl⟩
  rw [ha]
  split_ifs with hc1 hc2
  · exact ⟨le_max_left _ _, max_le (by norm_num) (by linarith)⟩
  · exact ⟨le_min (by norm_num) (by linarith), min_le_left _ _⟩
  · exact ⟨h1, h2⟩

theorem quality_bounds_foldl (l : List ℚ) (s : QCState)
    (h1 : 3/10 ≤ s.currentQuality) (h2 : s.currentQuality ≤ 9/10) :
    3/10 ≤ (l.foldl adjustQuality s).currentQuality ∧
      (l.foldl adjustQuality s).currentQuality ≤ 9/10 := by
  induction l generalizing s with
  | nil => exact ⟨h1, h2⟩
  | cons rt rest ih =>
      have hstep := adjust_quality_bounds s rt h1 h2
      exact ih (adjustQuality s rt) hstep.1 hstep.2

theorem quality_bounds_applyCalls (l : List ℚ) :
    3/10 ≤ (applyCalls l).currentQuality ∧
      (applyCalls l).currentQuality ≤ 9/10 :=
  quality_bounds_foldl l initQC (by norm_num [initQC]) (by norm_num [initQC])

theorem adjust_quality_eq (s : QCState) (rt : ℚ) :
    (adjustQuality s rt).currentQuality =
      (let w := (adjustQuality s rt).responseTimeHistory
       let m := w.sum / (w.length : ℚ)
       if m > targetResponseTime then max (3/10) (s.currentQuality - 5/100)
       else if m < targetResponseTime * (7/10) then
         min (9/10) (s.currentQuality + 2/100)
       else s.currentQuality) := rfl

/-- C6 counterexample: starting from the construction state, eight
`adjustQuality(2000)` calls bring quality down to exactly 0.3; on the ninth
call the window mean (2000ms) still exceeds the 1500ms target, yet quality
changes by 0 rather than by exactly -0.05, because of the clamp at 0.3. -/
theorem quality_clamp_counterexample_C6 :
    ((adjustQuality
        (applyCalls [2000, 2000, 2000, 2000, 2000, 2000, 2000, 2000])
        2000).responseTimeHistory.sum /
      ((adjustQuality
        (applyCalls [2000, 2000, 2000, 2000, 2000, 2000, 2000, 2000])
        2000).responseTimeHistory.length : ℚ)) > 1500 ∧
    (applyCalls [2000, 2000, 2000, 2000, 2000, 2000, 2000, 2000]).currentQuality
      = 3/10 ∧
    (adjustQuality
      (applyCalls [2000, 2000, 2000, 2000, 2000, 2000, 2000, 2000])
      2000).currentQuality = 3/10 ∧
    ¬((adjustQuality
        (applyCalls [2000, 2000, 2000, 2000, 2000, 2000, 2000, 2000])
        2000).currentQuality =
      (applyCalls [2000, 2000, 2000, 2000, 2000, 2000, 2000, 2000]).currentQuality
        - 5/100) := by
  norm_num [applyCalls, adjustQuality, initQC, targetResponseTime, List.foldl]

/-- C6 (amended): after any sequence of adjust calls from the initial state,
quality lies in [0.3, 0.9] and the window holds exactly the (at most 10) most
recent samples, oldest evicted first; each call moves quality to
`max(0.3, q - 0.05)` when the window mean exceeds 1500ms (a change of exactly
-0.05 except when clamped at 0.3), to `min(0.9, q + 0.02)` when the mean is
below 1050ms (exactly +0.02 except when clamped at 0.9), and leaves it
unchanged otherwise. -/
theorem adjustQuality_invariant_C6 :
    ∀ (l : List ℚ) (rt : ℚ),
    (adjustQuality (applyCalls l) rt).responseTimeHistory =
        (l ++ [rt]).drop ((l ++ [rt]).length - 10) ∧
    (adjustQuality (applyCalls l) rt).responseTimeHistory.length ≤ 10 ∧
    (3/10 ≤ (adjustQuality (applyCalls l) rt).currentQuality ∧
      (adjustQuality (applyCalls l) rt).currentQuality ≤ 9/10) ∧
    (adjustQuality (applyCalls l) rt).currentQuality =
      (let w := (l ++ [rt]).drop ((l ++ [rt]).length - 10)
       let m := w.sum / (w.length : ℚ)
       if m > 1500 then max (3/10) ((applyCalls l).currentQuality - 5/100)
       else if m < 1050 then
         min (9/10) ((applyCalls l).currentQuality + 2/100)
       else (applyCalls l).currentQuality) := by
  intro l rt
  have happ : adjustQuality (applyCalls l) rt = applyCalls (l ++ [rt]) :=
    (applyCalls_append l rt).symm
  have hhist : (adjustQuality (applyCalls l) rt).responseTimeHistory =
      (l ++ [rt]).drop ((l ++ [rt]).length - 10) := by
    rw [happ]; exact hist_applyCalls _
  refine ⟨hhist, ?_, ?_, ?_⟩
  · rw [hhist, List.length_drop]
    omega
  · rw [happ]
    exact quality_bounds_applyCalls _
  · have ht : targetResponseTime = (1500 : ℚ) := rfl
    rw [adjust_quality_eq, hhist, ht]
    norm_num

theorem byteAt_mem_or_zero (d : List ℤ) (i : ℕ) :
    byteAt d i ∈ d ∨ byteAt d i = 0 := by
  induction d generalizing i with
  | nil => right; rfl
  | cons a t ih =>
      cases i with
      | zero => left; exact List.mem_cons_self _ _
      | succ j =>
          rcases ih j with h | h
          · left; exact List.mem_cons_of_mem _ h
          · right; exact h

theorem byteAt_bounds (d : List ℤ) (hb : ∀ v ∈ d, 0 ≤ v ∧ v ≤ 255) (i : ℕ) :
    0 ≤ byteAt d i ∧ byteAt d i ≤ 255 := by
  rcases byteAt_mem_or_zero d i with h | h
  · exact hb _ h
  · rw [h]; norm_num

theorem sampleTerm_bounds (d1 d2 : List ℤ)
    (hb1 : ∀ v ∈ d1, 0 ≤ v ∧ v ≤ 255) (hb2 : ∀ v ∈ d2, 0 ≤ v ∧ v ≤ 255)
    (i : ℕ) : 0 ≤ sampleTerm d1 d2 i ∧ sampleTerm d1 d2 i ≤ 765 := by
  have h1 := byteAt_bounds d1 hb1 i
  have h2 := byteAt_bounds d2 hb2 i
  have h3 := byteAt_bounds d1 hb1 (i+1)
  have h4 := byteAt_bounds d2 hb2 (i+1)
  have h5 := byteAt_bounds d1 hb1 (i+2)
  have h6 := byteAt_bounds d2 hb2 (i+2)
  unfold sampleTerm
  have e1 : |byteAt d1 i - byteAt d2 i| ≤ 255 :=
    abs_le.mpr ⟨by linarith [h1.1, h1.2, h2.1, h2.2],
      by linarith [h1.1, h1.2, h2.1, h2.2]⟩
  have e2 : |byteAt d1 (i+1) - byteAt d2 (i+1)| ≤ 255 :=
    abs_le.mpr ⟨by linarith [h3.1, h3.2, h4.1, h4.2],
      by linarith [h3.1, h3.2, h4.1, h4.2]⟩
  have e3 : |byteAt d1 (i+2) - byteAt d2 (i+2)| ≤ 255 :=
    abs_le.mpr ⟨by linarith [h5.1, h5.2, h6.1, h6.2],
      by linarith [h5.1, h5.2, h6.1, h6.2]⟩
  constructor
  · positivity
  · linarith

theorem totalDifference_bounds (d1 d2 : List ℤ)
    (hb1 : ∀ v ∈ d1, 0 ≤ v ∧ v ≤ 255) (hb2 : ∀ v ∈ d2, 0 ≤ v ∧ v ≤ 255) :
    0 ≤ totalDifference d1 d2 ∧
      totalDifference d1 d2 ≤ 765 * (sampleCount d1.length : ℤ) := by
  unfold totalDifference
  constructor
  · apply List.sum_nonneg
    intro x hx
    obtain ⟨k, _, rfl⟩ := List.mem_map.mp hx
    exact (sampleTerm_bounds d1 d2 hb1 hb2 _).1
  · calc ((List.range (sampleCount d1.length)).map
          (fun k => sampleTerm d1 d2 (16 * k))).sum
        ≤ ((List.range (sampleCount d1.length)).map
          (fun k => sampleTerm d1 d2 (16 * k))).length • (765 : ℤ) := by
          apply List.sum_le_card_nsmul
          intro x hx
          obtain ⟨k, _, rfl⟩ := List.mem_map.mp hx
          exact (sampleTerm_bounds d1 d2 hb1 hb2 _).2
      _ = 765 * (sampleCount d1.length : ℤ) := by
          simp [List.length_map, List.length_range, nsmul_eq_mul, mul_comm]

/-- C10 counterexample: a pair of equal-length (4-byte, i.e. one-pixel RGBA)
frame buffers on which the frame-difference score is 1, not within [0, 0.25]:
the loop sums ceil(len/16) = 1 sample while the denominator assumes len/16
samples, so the claimed bound fails whenever 16 does not divide the buffer
length. -/
theorem frameDifference_bound_counterexample_C10 :
    (([0, 0, 0, 0] : List ℤ).length = ([255, 255, 255, 0] : List ℤ).length) ∧
    calculateFrameDifference [0, 0, 0, 0] [255, 255, 255, 0] = 1 ∧
    ¬(calculateFrameDifference [0, 0, 0, 0] [255, 255, 255, 0] ≤ 1/4) := by
  norm_num [calculateFrameDifference, totalDifference, sampleCount, sampleTerm,
    byteAt, List.range_succ]

/-- C10 (amended): for frames of equal pixel-buffer length divisible by 16,
the frame-difference score lies in [0, 0.25], and it exceeds the 0.15
significant-change threshold exactly when the summed difference exceeds
459/765 of its maximum, i.e. when the average per-sampled-pixel RGB
difference exceeds 459 over the data.length/16 sampled pixels. -/
theorem frameDifference_bound_C10 :
    ∀ (d1 d2 : List ℤ),
    d1.length = d2.length → 16 ∣ d1.length → 0 < d1.length →
    (∀ v ∈ d1, 0 ≤ v ∧ v ≤ 255) → (∀ v ∈ d2, 0 ≤ v ∧ v ≤ 255) →
    0 ≤ calculateFrameDifference d1 d2 ∧
      calculateFrameDifference d1 d2 ≤ 1/4 ∧
      (calculateFrameDifference d1 d2 > threshold ↔
        (totalDifference d1 d2 : ℚ) > 459 * (sampleCount d1.length : ℚ)) := by
  intro d1 d2 hlen hdvd hpos hb1 hb2
  obtain ⟨m, hm⟩ := hdvd
  have hn : sampleCount d1.length = m := by
    unfold sampleCount
    omega
  have hm0 : 0 < m := by omega
  have hmQ : (0 : ℚ) < (m : ℚ) := by exact_mod_cast hm0
  have hT := totalDifference_bounds d1 d2 hb1 hb2
  have hT0 : (0 : ℚ) ≤ (totalDifference d1 d2 : ℚ) := by exact_mod_cast hT.1
  have hTle : (totalDifference d1 d2 : ℚ) ≤ 765 * (m : ℚ) := by
    have := hT.2
    rw [hn] at this
    exact_mod_cast this
  have hden : (0 : ℚ) < 3060 * (m : ℚ) := by
    have : (0 : ℚ) < 3060 := by norm_num
    exact mul_pos this hmQ
  have hscore : calculateFrameDifference d1 d2 =
      (totalDifference d1 d2 : ℚ) / (3060 * (m : ℚ)) := by
    unfold calculateFrameDifference
    rw [hm, div_div]
    push_cast
    congr 1
    ring
  refine ⟨?_, ?_, ?_⟩
  · rw [hscore]
    exact div_nonneg hT0 (le_of_lt hden)
  · rw [hscore, div_le_iff₀ hden]
    linarith
  · rw [hscore, hn]
    unfold threshold
    rw [gt_iff_lt, lt_div_iff₀ hden, gt_iff_lt]
    constructor
    · intro h
      nlinarith
    · intro h
      nlinarith

theorem exceptBind_ok {ε α β : Type} (a : α) (f : α → Except ε β) :
    (Except.ok a : Except ε α) >>= f = f a := rfl

theorem exceptBind_error {ε α β : Type} (e : ε) (f : α → Except ε β) :
    (Except.error e : Except ε α) >>= f = Except.error e := rfl

theorem exceptPure_eq {ε α : Type} (a : α) :
    (pure a : Except ε α) = Except.ok a := rfl

theorem getField_null (key : String) :
    getField JValue.null key = .error () := rfl

theorem getField_ok (v : JValue) (key : String) (h : v ≠ JValue.null) :
    getField v key = .ok (fieldOf v key) := by
  cases v with
  | null => exact absurd rfl h
  | bool b => rfl
  | num q => rfl
  | str s => rfl
  | arr xs => rfl
  | obj fields => rfl

theorem itemKeep_null : itemKeep JValue.null = .error () := rfl

theorem itemKeep_ok (item : JValue) (h : item ≠ JValue.null) :
    itemKeep item = .ok (wellFormedItem item) := by
  simp only [itemKeep]
  rw [getField_ok item "point" h, exceptBind_ok]
  cases hq : optTruthy (fieldOf item "point") &&
      isArrayLen2 (fieldOf item "point") with
  | true =>
      simp [hq, getField_ok item "label" h, exceptBind_ok, wellFormedItem,
        exceptPure_eq]
  | false =>
      simp [hq, wellFormedItem, exceptPure_eq]

theorem itemBuild_ok (now : ℤ) (item : JValue) (h : item ≠ JValue.null) :
    itemBuild now item = .ok (enhancedItem now item) := by
  simp only [itemBuild]
  rw [getField_ok item "point" h, exceptBind_ok,
    getField_ok item "label" h, exceptBind_ok,
    getField_ok item "confidence" h, exceptBind_ok]
  rfl

theorem filterItems_ok (xs : List JValue)
    (h : ∀ item ∈ xs, item ≠ JValue.null) :
    filterItems xs = .ok (xs.filter wellFormedItem) := by
  induction xs with
  | nil => rfl
  | cons a t ih =>
      have ha : a ≠ JValue.null := h a (List.mem_cons_self a t)
      have ht : ∀ item ∈ t, item ≠ JValue.null :=
        fun i hi => h i (List.mem_cons_of_mem a hi)
      simp only [filterItems]
      rw [itemKeep_ok a ha, exceptBind_ok, ih ht, exceptBind_ok]
      cases hb : wellFormedItem a with
      | true => simp [hb, List.filter_cons, exceptPure_eq]
      | false => simp [hb, List.filter_cons, exceptPure_eq]

theorem filterItems_error (xs : List JValue)
    (h : ∃ item ∈ xs, item = JValue.null) :
    filterItems xs = .error () := by
  induction xs with
  | nil => simp at h
  | cons a t ih =>
      by_cases ha : a = JValue.null
      · simp only [filterItems]
        rw [ha, itemKeep_null, exceptBind_error]
      · have hex : ∃ i ∈ t, i = JValue.null := by
          obtain ⟨i, hi, hinull⟩ := h
          rcases List.mem_cons.mp hi with h1 | h2
          · exact absurd (h1.symm.trans hinull).symm (fun hh => ha hh.symm)
          · exact ⟨i, h2, hinull⟩
        simp only [filterItems]
        rw [itemKeep_ok a ha, exceptBind_ok, ih hex, exceptBind_error]

theorem mapItems_ok (now : ℤ) (xs : List JValue)
    (h : ∀ item ∈ xs, item ≠ JValue.null) :
    mapItems now xs = .ok (xs.map (enhancedItem now)) := by
  induction xs with
  | nil => rfl
  | cons a t ih =>
      have ha : a ≠ JValue.null := h a (List.mem_cons_self a t)
      have ht : ∀ item ∈ t, item ≠ JValue.null :=
        fun i hi => h i (List.mem_cons_of_mem a hi)
      simp only [mapItems]
      rw [itemBuild_ok now a ha, exceptBind_ok, ih ht, exceptBind_ok]
      rfl

theorem wellFormedItem_shape (item : JValue)
    (hwf : wellFormedItem item = true) :
    isArrayLen2 (some ((fieldOf item "point").getD .null)) = true ∧
      truthy ((fieldOf item "label").getD .null) = true := by
  unfold wellFormedItem at hwf
  simp only [Bool.and_eq_true] at hwf
  constructor
  · cases hgf : fieldOf item "point" with
    | none =>
        rw [hgf] at hwf
        exact absurd hwf.1.2 (by simp [isArrayLen2])
    | some p =>
        rw [hgf] at hwf
        simpa using hwf.1.2
  · cases hgl : fieldOf item "label" with
    | none =>
        rw [hgl] at hwf
        exact absurd hwf.2 (by simp [optTruthy])
    | some lv =>
        rw [hgl] at hwf
        simpa [optTruthy] using hwf.2

/-- C5 counterexample: a response that is an array holding one well-formed
item and one malformed item (an object without a point) does not throw and
is not treated as empty — the well-formed item is kept (a successful 1-item
response), contradicting the claim that the whole response yields zero
detections whenever any entry is malformed. -/
theorem malformed_item_kept_counterexample_C5 :
    (enhancedResults
      (.arr [.obj [("point", .arr [.num 1, .num 2]), ("label", .str "a")],
             .obj [("label", .str "b")]]) 6 0 =
      .ok [{ point := .arr [.num 1, .num 2], label := .str "a",
             confidence := .num (8/10), timestamp := 0 }]) ∧
    ¬(enhancedResults
      (.arr [.obj [("point", .arr [.num 1, .num 2]), ("label", .str "a")],
             .obj [("label", .str "b")]]) 6 0 = .ok []) := by
  constructor
  · rfl
  · intro h
    have h2 : (Except.ok
        [({ point := .arr [.num 1, .num 2], label := .str "a",
            confidence := .num (8/10), timestamp := 0 } : EnhancedItem)] :
          Except Unit (List EnhancedItem)) = .ok [] := h
    exact List.cons_ne_nil _ _ (Except.ok.inj h2)

/-- C5 (amended): a top-level non-array JSON response is treated as empty.
For an array none of whose elements is null, validation is per item: the
successful response consists of exactly the well-formed items (truthy
2-element point array and truthy label), kept in order up to maxItems, with
each malformed item individually dropped — the whole response is not treated
as empty when some entries are malformed, and no malformed entry is ever
partially trusted (every published item is well-formed).  If the array
contains a null element, the per-item property access throws a TypeError and
the whole request fails with a 500 error (nothing kept, zero detections that
tick).  A non-JSON response produces a 422 error, not a success payload, so
the client likewise applies zero detections that tick. -/
theorem route_validation_C5 :
    ∀ (parsed : JValue) (maxItems : ℕ) (now : ℤ),
    (∀ res, enhancedResults parsed maxItems now = .ok res →
      ∀ it ∈ res, isArrayLen2 (some it.point) = true ∧
        truthy it.label = true) ∧
    (isArray parsed = false →
      enhancedResults parsed maxItems now = .ok []) ∧
    (∀ res, enhancedResults parsed maxItems now = .ok res →
      res.length ≤ maxItems) ∧
    (∀ xs, parsed = JValue.arr xs → (∀ item ∈ xs, item ≠ JValue.null) →
      enhancedResults parsed maxItems now =
        .ok (((xs.filter wellFormedItem).take maxItems).map
          (enhancedItem now))) ∧
    (∀ xs, parsed = JValue.arr xs → (∃ item ∈ xs, item = JValue.null) →
      enhancedResults parsed maxItems now = .error ()) ∧
    (∀ v : JValue, enhancedResults v maxItems now = .error () →
      routeParseOutcome (some v) maxItems now =
        .error "Real-time detection failed") ∧
    routeParseOutcome none maxItems now =
      .error "Failed to parse AI response" := by
  intro parsed maxItems now
  have hnonarr : isArray parsed = false →
      enhancedResults parsed maxItems now = .ok [] := by
    intro hna
    cases parsed <;>
      simp_all [enhancedResults, isArray, filterItems, List.take_nil,
        mapItems, exceptBind_ok]
  have hpipe : ∀ xs, parsed = JValue.arr xs →
      (∀ item ∈ xs, item ≠ JValue.null) →
      enhancedResults parsed maxItems now =
        .ok (((xs.filter wellFormedItem).take maxItems).map
          (enhancedItem now)) := by
    intro xs hxs hnn
    subst hxs
    have htake : ∀ i ∈ (xs.filter wellFormedItem).take maxItems,
        i ≠ JValue.null :=
      fun i hi => hnn i (List.mem_of_mem_filter (List.take_subset _ _ hi))
    simp only [enhancedResults]
    rw [filterItems_ok xs hnn, exceptBind_ok, mapItems_ok now _ htake]
  have herr : ∀ xs, parsed = JValue.arr xs →
      (∃ item ∈ xs, item = JValue.null) →
      enhancedResults parsed maxItems now = .error () := by
    intro xs hxs hex
    subst hxs
    simp only [enhancedResults]
    rw [filterItems_error xs hex, exceptBind_error]
  refine ⟨?_, hnonarr, ?_, hpipe, herr, ?_, rfl⟩
  · intro res hres it hit
    by_cases hia : isArray parsed = false
    · rw [hnonarr hia] at hres
      obtain rfl : ([] : List EnhancedItem) = res := Except.ok.inj hres
      exact absurd hit (List.not_mem_nil _)
    · obtain ⟨xs, rfl⟩ : ∃ xs, parsed = JValue.arr xs := by
        cases parsed <;> first | exact ⟨_, rfl⟩ | simp [isArray] at hia
      by_cases hnn : ∀ item ∈ xs, item ≠ JValue.null
      · rw [hpipe xs rfl hnn] at hres
        obtain rfl := Except.ok.inj hres
        obtain ⟨item, hitem, rfl⟩ := List.mem_map.mp hit
        have hwf : wellFormedItem item = true :=
          (List.mem_filter.mp (List.take_subset _ _ hitem)).2
        exact wellFormedItem_shape item hwf
      · push_neg at hnn
        rw [herr xs rfl hnn] at hres
        exact absurd hres (by simp)
  · intro res hres
    by_cases hia : isArray parsed = false
    · rw [hnonarr hia] at hres
      obtain rfl : ([] : List EnhancedItem) = res := Except.ok.inj hres
      simp
    · obtain ⟨xs, rfl⟩ : ∃ xs, parsed = JValue.arr xs := by
        cases parsed <;> first | exact ⟨_, rfl⟩ | simp [isArray] at hia
      by_cases hnn : ∀ item ∈ xs, item ≠ JValue.null
      · rw [hpipe xs rfl hnn] at hres
        obtain rfl := Except.ok.inj hres
        rw [List.length_map, List.length_take]
        omega
      · push_neg at hnn
        rw [herr xs rfl hnn] at hres
        exact absurd hres (by simp)
  · intro v hv
    simp [routeParseOutcome, hv]

theorem route_validation_witness_C5 :
    enhancedResults (JValue.num 5) 6 0 = .ok [] :=
  (route_validation_C5 (JValue.num 5) 6 0).2.1 rfl

/-- C8: for every successful response and tracker state, the merged set is
exactly the union of the fresh detections with those tracked objects whose
label does not occur among the fresh detections; a tracked object whose label
occurs among the fresh detections never appears in the merged set. -/
theorem merge_characterization_C8 :
    ∀ (results : List RemoteItem) (now : ℤ) (tr : TrackerState)
      (tnow maxAge : ℤ),
    (∀ p, p ∈ mergeDetections (results.map (toOptimizedPoint now))
        (getTrackedObjects tr tnow maxAge) ↔
      (p ∈ results.map (toOptimizedPoint now) ∨
        (p ∈ getTrackedObjects tr tnow maxAge ∧
          ∀ d ∈ results.map (toOptimizedPoint now), d.label ≠ p.label))) ∧
    (∀ t ∈ getTrackedObjects tr tnow maxAge,
      (∃ d ∈ results.map (toOptimizedPoint now), d.label = t.label) →
        t ∉ mergeDetections (results.map (toOptimizedPoint now))
          (getTrackedObjects tr tnow maxAge)) := by
  intro results now tr tnow maxAge
  have hmem : ∀ (fr trk : List OptimizedPoint) (p : OptimizedPoint),
      p ∈ mergeDetections fr trk ↔
        (p ∈ fr ∨ (p ∈ trk ∧ ∀ d ∈ fr, d.label ≠ p.label)) := by
    intro fr trk p
    unfold mergeDetections
    rw [List.mem_append, List.mem_filter]
    simp only [Bool.not_eq_true', List.any_eq_false, beq_iff_eq]
  refine ⟨hmem _ _, ?_⟩
  rintro t ht ⟨d, hd, hlab⟩ hmem_t
  rcases (hmem _ _ t).mp hmem_t with hin | ⟨_, hall⟩
  · obtain ⟨r, _, rfl⟩ := List.mem_map.mp hin
    obtain ⟨l, e, _, _, heq⟩ := (mem_getTrackedObjects tr tnow maxAge _).mp ht
    have hid : (toOptimizedPoint now r).trackingId = some e.trackingId := by
      rw [heq]
    simp [toOptimizedPoint] at hid
  · exact hall d hd hlab

theorem merge_characterization_witness_C8 :
    ({ label := "keys", x := 1/2, y := 1/2,
       confidence := (9/10 : ℚ) *
         max (3/10) (1 - (((1000 : ℤ) - 0 : ℤ) : ℚ) / (5000 : ℚ)),
       timestamp := 0, estimated := decide (((1000 : ℤ) - 0) > 2000),
       trackingId := some "keys-0" } : OptimizedPoint) ∉
      mergeDetections
        (([⟨500, 500, "keys", none⟩] : List RemoteItem).map
          (toOptimizedPoint 1000))
        (getTrackedObjects [("keys", ⟨1/2, 1/2, 0, 9/10, "keys-0"⟩)]
          1000 5000) :=
  (merge_characterization_C8 [⟨500, 500, "keys", none⟩] 1000
      [("keys", ⟨1/2, 1/2, 0, 9/10, "keys-0"⟩)] 1000 5000).2 _
    ((mem_getTrackedObjects _ 1000 5000 _).mpr
      ⟨"keys", ⟨1/2, 1/2, 0, 9/10, "keys-0"⟩, List.mem_singleton_self _,
        by norm_num, rfl⟩)
    ⟨toOptimizedPoint 1000 ⟨500, 500, "keys", none⟩,
      List.mem_map_of_mem _ (List.mem_singleton_self _), rfl⟩

/-- C1 (code bug evidence): a successful remote call reports the 3-unit cost
to the external ledger exactly once, and a smart-skipped tick reports nothing
— but the session's tracked balance drops by 6 per successful call, not by 3:
starting from 100, after one successful call (with the ledger call
succeeding) the balance is 94 (the two decrements at lines 334 and 362), and
a subsequent skipped tick leaves both the reports and the balance unchanged. -/
theorem creditLedger_double_decrement_C1 :
    (performSmartDetection allFlags
      { initialState 100 with isDetecting := true, timerInterval := some 1500 }
      0 true true true
      (some ([⟨500, 500, "cup", some (9/10)⟩], 800)) true).ledgerReports =
        [3] ∧
    (performSmartDetection allFlags
      { initialState 100 with isDetecting := true, timerInterval := some 1500 }
      0 true true true
      (some ([⟨500, 500, "cup", some (9/10)⟩], 800)) true).currentBalance =
        94 ∧
    ¬((performSmartDetection allFlags
      { initialState 100 with isDetecting := true, timerInterval := some 1500 }
      0 true true true
      (some ([⟨500, 500, "cup", some (9/10)⟩], 800)) true).currentBalance =
        97) ∧
    (performSmartDetection allFlags
      (performSmartDetection allFlags
        { initialState 100 with
            isDetecting := true, timerInterval := some 1500 }
        0 true true true
        (some ([⟨500, 500, "cup", some (9/10)⟩], 800)) true)
      100 true true true
      (some ([⟨500, 500, "cup", some (9/10)⟩], 800)) true).ledgerReports =
        [3] ∧
    (performSmartDetection allFlags
      (performSmartDetection allFlags
        { initialState 100 with
            isDetecting := true, timerInterval := some 1500 }
        0 true true true
        (some ([⟨500, 500, "cup", some (9/10)⟩], 800)) true)
      100 true true true
      (some ([⟨500, 500, "cup", some (9/10)⟩], 800)) true).skippedFrames =
        1 := by
  decide

/-- C2 (code bug evidence): `stopVideoStream` clears the published set and
the timer, but the post-await continuation of `performSmartDetection` carries
no cancellation check, so an in-flight call that resolves successfully after
the stop still updates the tracker (a "cup" entry appears) and republishes a
non-empty detection set, instead of being discarded. -/
theorem late_response_applied_after_stop_C2 :
    (stopVideoStream { initialState 50 with
          isDetecting := true, timerInterval := some 2000 }).detectedObjects = [] ∧
    mapGet (stopVideoStream { initialState 50 with
          isDetecting := true, timerInterval := some 2000 }).tracker "cup" = none ∧
    (applyRemoteSuccess allFlags
        (stopVideoStream { initialState 50 with
            isDetecting := true, timerInterval := some 2000 })
        5000 [⟨500, 500, "cup", some (9/10)⟩] 500 true).detectedObjects ≠
      [] ∧
    (mapGet (applyRemoteSuccess allFlags
        (stopVideoStream { initialState 50 with
            isDetecting := true, timerInterval := some 2000 })
        5000 [⟨500, 500, "cup", some (9/10)⟩] 500 true).tracker
      "cup").isSome = true := by
  decide

/-- C7 counterexample: with adaptive quality enabled, the timer is armed once
at toggle time with 1500ms (the recommendation from an empty history); after
a successful remote call with 3500ms latency the controller's recommended
interval becomes 4000ms, yet the armed interval is still 1500ms — the timer
is never re-armed after a successful call. -/
theorem timer_not_rearmed_counterexample_C7 :
    (toggleSmartDetection allFlags 2000 (initialState 10000)).timerInterval =
      some 1500 ∧
    getRecommendedInterval
      (performSmartDetection allFlags
        (toggleSmartDetection allFlags 2000 (initialState 10000))
        0 true true true (some ([], 3500)) true).qc = 4000 ∧
    (performSmartDetection allFlags
      (toggleSmartDetection allFlags 2000 (initialState 10000))
      0 true true true (some ([], 3500)) true).timerInterval = some 1500 ∧
    ¬((performSmartDetection allFlags
        (toggleSmartDetection allFlags 2000 (initialState 10000))
        0 true true true (some ([], 3500)) true).timerInterval =
      some (getRecommendedInterval
        (performSmartDetection allFlags
          (toggleSmartDetection allFlags 2000 (initialState 10000))
          0 true true true (some ([], 3500)) true).qc)) := by
  have hqc : (performSmartDetection allFlags
      (toggleSmartDetection allFlags 2000 (initialState 10000))
      0 true true true (some ([], 3500)) true).qc =
        adjustQuality initQC 3500 := rfl
  have hrec : getRecommendedInterval (adjustQuality initQC 3500) = 4000 := by
    norm_num [getRecommendedInterval, getAverageResponseTime, adjustQuality,
      initQC, targetResponseTime]
  have hti : (performSmartDetection allFlags
      (toggleSmartDetection allFlags 2000 (initialState 10000))
      0 true true true (some ([], 3500)) true).timerInterval = some 1500 := by
    decide
  refine ⟨by decide, by rw [hqc]; exact hrec, hti, ?_⟩
  rw [hti, hqc, hrec]
  decide

/-- C7 (amended): the quality controller's recommended interval is consulted
only when detection is toggled on (with adaptive quality enabled, the timer
is armed once with that recommendation); ticks — successful remote calls
included — never modify the armed interval, so it does not track the
controller's output as latency changes. -/
theorem timer_armed_once_C7 :
    (∀ (flags : DetectorFlags) (det : ℕ) (st : DetectorState),
      st.isDetecting = false →
      validateCreditsForDetection st.currentBalance det = true →
      flags.adaptiveQuality = true →
      (toggleSmartDetection flags det st).timerInterval =
        some (getRecommendedInterval st.qc)) ∧
    (∀ (flags : DetectorFlags) (st : DetectorState) (now : ℤ)
        (sA fC cOk : Bool) (remote : Option (List RemoteItem × ℚ))
        (uOk : Bool),
      (performSmartDetection flags st now sA fC cOk remote uOk).timerInterval
        = st.timerInterval) := by
  constructor
  · intro flags det st h1 h2 h3
    simp [toggleSmartDetection, h1, h2, h3]
  · intro flags st now sA fC cOk remote uOk
    unfold performSmartDetection
    repeat' split
    all_goals rfl

theorem timer_armed_once_witness_C7 :
    (toggleSmartDetection allFlags 2000 (initialState 10000)).timerInterval =
      some (getRecommendedInterval (initialState 10000).qc) :=
  timer_armed_once_C7.1 allFlags 2000 (initialState 10000) rfl (by decide) rfl

theorem frameDifference_bound_witness_C10 :
    0 ≤ calculateFrameDifference (List.replicate 16 (0 : ℤ))
        (List.replicate 16 (0 : ℤ)) ∧
      calculateFrameDifference (List.replicate 16 (0 : ℤ))
        (List.replicate 16 (0 : ℤ)) ≤ 1/4 :=
  have h := frameDifference_bound_C10 (List.replicate 16 (0 : ℤ))
    (List.replicate 16 (0 : ℤ)) rfl (by norm_num) (by norm_num)
    (fun v hv => by rw [List.eq_of_mem_replicate hv]; norm_num)
    (fun v hv => by rw [List.eq_of_mem_replicate hv]; norm_num)
  ⟨h.1, h.2.1⟩

end MomEye
